import Mathlib

/-!
Verification of the admission and state-tracking core of the Reddit TLDR bot
(`reddit-tldr-bot`): the per-user cooldown policy, the milestone tracker, the
daily quota controller, the moderator cache, the dedup ledgers and the
dispatch loops of `reply_handler.py`, `summon_handler.py` and
`tldr_runner.py`.

Modelling conventions:
- Unix timestamps (`datetime.utcnow().timestamp()`, `created_utc`) are
  rationals (seconds).  The current time is passed explicitly as `now`.
- Python dicts keyed by username are association lists in insertion order;
  lookup takes the first (and only) binding of a key.
- Python `set` objects are `Finset String` while a run mutates them; the
  end-of-run writeback `list(s)[-K:]` is modelled against an arbitrary
  duplicate-free enumeration of the set's elements, because Python set
  iteration order is unspecified (see `set_writeback`).
- The regex classifiers (`SUMMON_PATTERNS`, `HOSTILE_PATTERNS`,
  `BOT_INDICATORS`) are pure predicates supplied to the core as parameters
  (`summonPat`, `hostPat`, `botPat`), matching the spec's scoping, which
  treats pattern classification as an external pure classifier.  The
  null/empty-author defaults and the lower-casing that wrap those patterns
  are modelled concretely, from the source.
- External calls that can raise (moderator refresh, Gemini generation and
  reply emission) are modelled by an outcome parameter: `Option` for the
  refresh result, a Bool `genOk` for the generate-and-reply block: the code
  wraps the whole block in one `try`/`except`.
-/

namespace TldrBot

/-! ### Configuration (config.py) -/

namespace Config

def SUBREDDIT : String := "accelerate"

def MAX_REPLIES_PER_RUN : Nat := 1

def MAX_AGE_HOURS : ℚ := 24

/-- SAME_USER_COOLDOWN_HOURS from config.py: the cooldown window W, hours. -/
def SAME_USER_COOLDOWN_HOURS : ℚ := 1

/-- SAME_USER_REPLIES_BEFORE_COOLDOWN from config.py: the grace allowance G. -/
def SAME_USER_REPLIES_BEFORE_COOLDOWN : Nat := 2

def MOD_CACHE_REFRESH_DAYS : ℚ := 3

end Config

/-! ### Per-user cooldown state (`recent_user_replies` values) -/

/-- One value of the `recent_user_replies` dict:
`{username: {count: int, first_reply_time: float}}`. -/
structure UserData where
  count : Nat
  first_reply_time : ℚ
deriving DecidableEq

/-- Lookup in a username-keyed dict modelled as an association list. -/
def lookup_user (a : String) : List (String × UserData) → Option UserData
  | [] => none
  | (k, v) :: rest => if k = a then some v else lookup_user a rest

/-- check_user_cooldown (reply_handler.py lines 89-113 and, verbatim,
summon_handler.py lines 99-114).  Returns `true` when the author should be
skipped.  A Python-falsy author (`None` or the empty string) or one with no
entry in `recent_replies` returns `false` at once. -/
def check_user_cooldown (now : ℚ) (author_name : Option String)
    (recent_replies : List (String × UserData)) : Bool :=
  match author_name with
  | none => false
  | some a =>
    if a = "" then false
    else
      match lookup_user a recent_replies with
      | none => false
      | some user_data =>
        if user_data.count < Config.SAME_USER_REPLIES_BEFORE_COOLDOWN then false
        else decide ((now - user_data.first_reply_time) / 3600
            < Config.SAME_USER_COOLDOWN_HOURS)

/-! ### Milestone tracker (tldr_runner.py) -/

namespace TldrRunner

def WORD_THRESHOLD : Nat := 250

def MAX_TLDR_PER_RUN : Nat := 1

def MAX_TLDR_PER_DAY : Nat := 40

def MAX_AGE_HOURS : ℚ := 24

def COMMENT_MILESTONES : List Nat := [20, 50, 100]

/-- get_next_milestone (tldr_runner.py lines 285-301).  The source's first
loop has a `pass` body and does nothing; the second loop finds the highest
milestone with `comment_count >= milestone`; it is returned only when above
`last_milestone`, else 0. -/
def get_next_milestone (comment_count : Nat) (last_milestone : Nat) : Nat :=
  let current_milestone :=
    COMMENT_MILESTONES.foldl
      (fun cur milestone => if milestone ≤ comment_count then milestone else cur) 0
  if last_milestone < current_milestone then current_milestone else 0

/-- Statement of the spec's milestone contract, for comparison with
`get_next_milestone`: the highest ladder value that is `≤ current_count` and
strictly greater than `last_watermark`, with 0 encoding "none". -/
def next_milestone_of_spec (current_count : Nat) (last_watermark : Nat) : Nat :=
  (COMMENT_MILESTONES.filter
      (fun m => decide (m ≤ current_count) && decide (last_watermark < m))).foldl
    max 0

/-! ### Daily quota controller (tldr_runner.py) -/

/-- Fields of the persisted state that check_daily_limit reads and writes:
`daily_tldrs` and `daily_reset_date` (`None` on first run). -/
structure QuotaState where
  daily_tldrs : Nat
  daily_reset_date : Option String
deriving DecidableEq

/-- check_daily_limit (tldr_runner.py lines 304-319).  `today` is
`date.today().isoformat()`.  On a date mismatch the counter is zeroed and the
date stamped before the comparison against MAX_TLDR_PER_DAY. -/
def check_daily_limit (today : String) (state : QuotaState) : Bool × QuotaState :=
  let state1 :=
    if state.daily_reset_date ≠ some today then
      { daily_tldrs := 0, daily_reset_date := some today }
    else state
  if MAX_TLDR_PER_DAY ≤ state1.daily_tldrs then (false, state1)
  else (true, state1)

end TldrRunner

/-! ### Moderator cache (reply_handler.py lines 22-58; summon_handler.py
lines 23-59 are the same code verbatim) -/

/-- The `state["moderator_cache"]` record: `{moderators, last_refresh}`.
Defaults (`last_refresh = 0`, `moderators = []`) are the `.get` defaults the
source uses when the key is absent. -/
structure ModCache where
  moderators : List String
  last_refresh : ℚ
deriving DecidableEq

/-- cache_max_age from get_cached_moderators: MOD_CACHE_REFRESH_DAYS in
seconds. -/
def cache_max_age : ℚ := Config.MOD_CACHE_REFRESH_DAYS * 24 * 3600

/-- get_cached_moderators (reply_handler.py lines 22-50).  `refreshResult` is
the outcome of `subreddit.moderator()`: `some fresh_mods` on success, `none`
when the call raises.  Returns the lower-cased moderator set together with
the (possibly updated) `moderator_cache` field of the state. -/
def get_cached_moderators (now : ℚ) (refreshResult : Option (List String))
    (cache : ModCache) : Finset String × ModCache :=
  if cache.moderators ≠ [] ∧ now - cache.last_refresh < cache_max_age then
    ((cache.moderators.map String.toLower).toFinset, cache)
  else
    match refreshResult with
    | some fresh_mods =>
      ((fresh_mods.map String.toLower).toFinset,
        { moderators := fresh_mods, last_refresh := now })
    | none => ((cache.moderators.map String.toLower).toFinset, cache)

/-- is_moderator (reply_handler.py lines 53-58).  A Python-falsy author
(`None` or `""`) is never a moderator and the cache is not consulted;
otherwise the lower-cased name is tested against the cached set, whose
refresh may update the state's `moderator_cache` in place. -/
def is_moderator (now : ℚ) (refreshResult : Option (List String))
    (author_name : Option String) (cache : ModCache) : Bool × ModCache :=
  match author_name with
  | none => (false, cache)
  | some name =>
    if name = "" then (false, cache)
    else
      let mods := get_cached_moderators now refreshResult cache
      (decide (name.toLower ∈ mods.1), mods.2)

/-! ### Classifier wrappers (reply_handler.py lines 61-86,
summon_handler.py lines 62-96)

The regex engines over HOSTILE_PATTERNS, BOT_INDICATORS and SUMMON_PATTERNS
are outside the core (the spec treats pattern classification as an external
pure classifier), so each is a `String → Bool` parameter applied to the
already lower-cased text, exactly where the source calls `re.search` on
`text.lower()`.  The null/empty-author defaults are from the source. -/

/-- is_hostile_comment: the source lowers the text then scans
HOSTILE_PATTERNS. -/
def is_hostile_comment (hostPat : String → Bool) (text : String) : Bool :=
  hostPat text.toLower

/-- is_likely_bot: a Python-falsy author (`None`, `""`) is treated as a bot;
otherwise BOT_INDICATORS are scanned against the lower-cased name. -/
def is_likely_bot (botPat : String → Bool) (author_name : Option String) : Bool :=
  match author_name with
  | none => true
  | some name => if name = "" then true else botPat name.toLower

/-- is_summon (summon_handler.py lines 62-68): SUMMON_PATTERNS scanned
against the lower-cased text. -/
def is_summon (summonPat : String → Bool) (text : String) : Bool :=
  summonPat text.toLower

/-- is_too_old (reply_handler.py lines 82-86; identical in summon_handler.py
and, with its own constant of the same value, tldr_runner.py lines 322-326). -/
def is_too_old (now : ℚ) (created_utc : ℚ) : Bool :=
  decide ((now - created_utc) / 3600 > Config.MAX_AGE_HOURS)

/-! ### Per-user reply tracking update (reply_handler.py lines 217-221;
summon_handler.py lines 222-225 and 305-308 are the same code) -/

/-- Update of `recent_user_replies` after a successful reply: a new user gets
`{count: 1, first_reply_time: now}` appended (Python dicts insert new keys at
the end); an existing user's count is incremented, `first_reply_time` left
as it is. -/
def bump_user (author : String) (now : ℚ) :
    List (String × UserData) → List (String × UserData)
  | [] => [(author, ⟨1, now⟩)]
  | (k, v) :: rest =>
    if k = author then (k, ⟨v.count + 1, v.first_reply_time⟩) :: rest
    else (k, v) :: bump_user author now rest

/-- The author at the reply-tracking update.  `none` is unreachable in the
source (a null author was already skipped as bot-like); modelled as a no-op. -/
def bump_user_opt (author : Option String) (now : ℚ)
    (m : List (String × UserData)) : List (String × UserData) :=
  match author with
  | none => m
  | some a => bump_user a now m

/-! ### Dedup ledger writeback (reply_handler.py line 234, summon_handler.py
line 321, tldr_runner.py lines 589-590)

During a run the ledgers are Python `set` objects; at end of run the source
writes back `list(s)[-K:]`.  Python set iteration order is unspecified, so
`list(s)` is modelled as an arbitrary duplicate-free enumeration `enum` of
the set's elements (`enum_of_pyset`), and the stored ledger is the last `K`
entries of that enumeration. -/

/-- Property of a list that `list(s)` can return for the Python set `s`. -/
def enum_of_pyset (enum : List String) (s : Finset String) : Prop :=
  enum.Nodup ∧ enum.toFinset = s

/-- The writeback `list(s)[-K:]` applied to one enumeration of the set. -/
def set_writeback (enum : List String) (K : Nat) : List String :=
  enum.drop (enum.length - K)

/-! ### Inbox reply stream (reply_handler.py, check_inbox_replies) -/

/-- One inbox item, as check_inbox_replies reads it.  `author = none` models
a deleted account (`item.author` is `None`). -/
structure InboxItem where
  id : String
  created_utc : ℚ
  subreddit_name : String
  body : String
  author : Option String

/-- The state fields check_inbox_replies reads and writes: the
`replied_to_comments` ledger (a set during the run), `recent_user_replies`
and the `moderator_cache` that `is_moderator` may refresh in place. -/
structure ReplyState where
  replied_to : Finset String
  recent_user_replies : List (String × UserData)
  moderator_cache : ModCache

/-- The per-item body of the check_inbox_replies loop (reply_handler.py
lines 157-228), given that the per-run cap has not been reached.  `genOk`
tells whether the `try` block (context fetch, Gemini generation and
`item.reply`) succeeds; its `except` arm marks the item as processed.
Returns the updated state and whether a reply was sent. -/
def process_inbox_item (now : ℚ) (hostPat botPat : String → Bool)
    (refreshResult : Option (List String)) (genOk : Bool) (dry_run : Bool)
    (item : InboxItem) (s : ReplyState) : ReplyState × Bool :=
  if item.id ∈ s.replied_to then (s, false)
  else if is_too_old now item.created_utc then (s, false)
  else if item.subreddit_name.toLower ≠ Config.SUBREDDIT.toLower then (s, false)
  else if item.body = "" ∨ item.body = "[deleted]" then
    ({ s with replied_to := insert item.id s.replied_to }, false)
  else if is_likely_bot botPat item.author then
    ({ s with replied_to := insert item.id s.replied_to }, false)
  else if is_hostile_comment hostPat item.body then
    ({ s with replied_to := insert item.id s.replied_to }, false)
  else
    let mods := is_moderator now refreshResult item.author s.moderator_cache
    let s1 : ReplyState := { s with moderator_cache := mods.2 }
    if mods.1 = false ∧
        check_user_cooldown now item.author s1.recent_user_replies then
      (s1, false)
    else if dry_run then
      ({ s1 with replied_to := insert item.id s1.replied_to }, false)
    else if genOk then
      ({ s1 with replied_to := insert item.id s1.replied_to,
                 recent_user_replies :=
                   bump_user_opt item.author now s1.recent_user_replies }, true)
    else
      ({ s1 with replied_to := insert item.id s1.replied_to }, false)

/-- One iteration of the check_inbox_replies loop carrying
`(state, replies_sent)`: the cap test of line 153 and then the item body. -/
def inbox_fold_step (now : ℚ) (hostPat botPat : String → Bool)
    (refreshResult : Option (List String)) (genOk : String → Bool)
    (dry_run : Bool) (acc : ReplyState × Nat) (item : InboxItem) :
    ReplyState × Nat :=
  if Config.MAX_REPLIES_PER_RUN ≤ acc.2 then acc
  else
    let r := process_inbox_item now hostPat botPat refreshResult
      (genOk item.id) dry_run item acc.1
    (r.1, acc.2 + if r.2 then 1 else 0)

/-- The check_inbox_replies loop (reply_handler.py lines 151-228): items in
inbox order, each processed only while `replies_sent` is under
MAX_REPLIES_PER_RUN (the source `break`s at the cap; nothing after the break
changes state, so guarding each step is equivalent).  `genOk` gives the
outcome of the try block per item id. -/
def check_inbox_replies (now : ℚ) (hostPat botPat : String → Bool)
    (refreshResult : Option (List String)) (genOk : String → Bool)
    (dry_run : Bool) (items : List InboxItem) (s : ReplyState) :
    ReplyState × Nat :=
  items.foldl (inbox_fold_step now hostPat botPat refreshResult genOk dry_run)
    (s, 0)

/-! ### Summon streams (summon_handler.py, check_for_summons) -/

/-- One comment of the `subreddit.comments(limit=100)` scan. -/
structure SummonComment where
  id : String
  created_utc : ℚ
  author : Option String
  body : String

/-- One post of the `subreddit.new(limit=25)` scan. -/
structure SummonPost where
  id : String
  created_utc : ℚ
  author : Option String
  title : String
  selftext : String

/-- The state fields check_for_summons reads and writes. -/
structure SummonState where
  summon_responses : Finset String
  recent_user_replies : List (String × UserData)
  moderator_cache : ModCache

/-- The per-comment body of the check_for_summons comment loop
(summon_handler.py lines 157-232).  Note: a deleted body is skipped without
being marked, unlike in the inbox stream. -/
def process_summon_comment (now : ℚ)
    (summonPat hostPat botPat : String → Bool)
    (refreshResult : Option (List String)) (genOk : Bool) (dry_run : Bool)
    (bot_username : String) (c : SummonComment) (s : SummonState) :
    SummonState × Bool :=
  if c.id ∈ s.summon_responses then (s, false)
  else if is_too_old now c.created_utc then (s, false)
  else if c.author = some bot_username then (s, false)
  else if c.body = "" ∨ c.body = "[deleted]" then (s, false)
  else if ¬ is_summon summonPat c.body then (s, false)
  else if is_likely_bot botPat c.author then
    ({ s with summon_responses := insert c.id s.summon_responses }, false)
  else if is_hostile_comment hostPat c.body then
    ({ s with summon_responses := insert c.id s.summon_responses }, false)
  else
    let mods := is_moderator now refreshResult c.author s.moderator_cache
    let s1 : SummonState := { s with moderator_cache := mods.2 }
    if mods.1 = false ∧
        check_user_cooldown now c.author s1.recent_user_replies then
      (s1, false)
    else if dry_run then
      ({ s1 with summon_responses := insert c.id s1.summon_responses }, false)
    else if genOk then
      ({ s1 with summon_responses := insert c.id s1.summon_responses,
                 recent_user_replies :=
                   bump_user_opt c.author now s1.recent_user_replies }, true)
    else
      ({ s1 with summon_responses := insert c.id s1.summon_responses }, false)

/-- The per-post body of the check_for_summons post loop (summon_handler.py
lines 242-315).  The ledger key is `"post_" ++ id` and the summon and
hostility classifiers run on `f"{title} {selftext or ''}"`. -/
def process_summon_post (now : ℚ)
    (summonPat hostPat botPat : String → Bool)
    (refreshResult : Option (List String)) (genOk : Bool) (dry_run : Bool)
    (bot_username : String) (p : SummonPost) (s : SummonState) :
    SummonState × Bool :=
  let post_id := "post_" ++ p.id
  let combined_text := p.title ++ " " ++ p.selftext
  if post_id ∈ s.summon_responses then (s, false)
  else if is_too_old now p.created_utc then (s, false)
  else if p.author = some bot_username then (s, false)
  else if ¬ is_summon summonPat combined_text then (s, false)
  else if is_likely_bot botPat p.author then
    ({ s with summon_responses := insert post_id s.summon_responses }, false)
  else if is_hostile_comment hostPat combined_text then
    ({ s with summon_responses := insert post_id s.summon_responses }, false)
  else
    let mods := is_moderator now refreshResult p.author s.moderator_cache
    let s1 : SummonState := { s with moderator_cache := mods.2 }
    if mods.1 = false ∧
        check_user_cooldown now p.author s1.recent_user_replies then
      (s1, false)
    else if dry_run then
      ({ s1 with summon_responses := insert post_id s1.summon_responses }, false)
    else if genOk then
      ({ s1 with summon_responses := insert post_id s1.summon_responses,
                 recent_user_replies :=
                   bump_user_opt p.author now s1.recent_user_replies }, true)
    else
      ({ s1 with summon_responses := insert post_id s1.summon_responses }, false)

/-- One iteration of the check_for_summons comment loop carrying
`(state, summons_handled)`. -/
def summon_comment_fold_step (now : ℚ)
    (summonPat hostPat botPat : String → Bool)
    (refreshResult : Option (List String)) (genOk : String → Bool)
    (dry_run : Bool) (bot_username : String)
    (acc : SummonState × Nat) (c : SummonComment) : SummonState × Nat :=
  if Config.MAX_REPLIES_PER_RUN ≤ acc.2 then acc
  else
    let r := process_summon_comment now summonPat hostPat botPat
      refreshResult (genOk c.id) dry_run bot_username c acc.1
    (r.1, acc.2 + if r.2 then 1 else 0)

/-- One iteration of the check_for_summons post loop. -/
def summon_post_fold_step (now : ℚ)
    (summonPat hostPat botPat : String → Bool)
    (refreshResult : Option (List String)) (genOk : String → Bool)
    (dry_run : Bool) (bot_username : String)
    (acc : SummonState × Nat) (p : SummonPost) : SummonState × Nat :=
  if Config.MAX_REPLIES_PER_RUN ≤ acc.2 then acc
  else
    let r := process_summon_post now summonPat hostPat botPat
      refreshResult (genOk ("post_" ++ p.id)) dry_run bot_username p acc.1
    (r.1, acc.2 + if r.2 then 1 else 0)

/-- The check_for_summons run (summon_handler.py lines 148-318): the comment
scan, then — only while still under the cap — the post scan, sharing
`summons_handled`, the ledger, the reply tracking and the moderator cache. -/
def check_for_summons (now : ℚ) (summonPat hostPat botPat : String → Bool)
    (refreshResult : Option (List String)) (genOk : String → Bool)
    (dry_run : Bool) (bot_username : String)
    (comments : List SummonComment) (posts : List SummonPost)
    (s : SummonState) : SummonState × Nat :=
  posts.foldl
    (summon_post_fold_step now summonPat hostPat botPat refreshResult genOk
      dry_run bot_username)
    (comments.foldl
      (summon_comment_fold_step now summonPat hostPat botPat refreshResult
        genOk dry_run bot_username)
      (s, 0))

/-! ### Long-post TLDR stream (tldr_runner.py, main, phase 1) -/

namespace TldrRunner

/-- Word counting for `len(text.split())`: the number of maximal
whitespace-separated runs, by one pass over the characters.  `inWord` says
whether the previous character was inside a word. -/
def countWordsAux : List Char → Bool → Nat
  | [], _ => 0
  | c :: rest, inWord =>
    if c.isWhitespace then countWordsAux rest false
    else (if inWord then 0 else 1) + countWordsAux rest true

/-- count_words (tldr_runner.py lines 78-88): `len(text.split())` after the
markdown normalisation, which rewrites bold/italic/code/link markers and is
the identity on text without them (every text this file evaluates is
marker-free). -/
def count_words (text : String) : Nat := countWordsAux text.data false

/-- is_too_old (tldr_runner.py lines 322-326), against the runner's own
MAX_AGE_HOURS constant. -/
def is_too_old (now : ℚ) (created_utc : ℚ) : Bool :=
  decide ((now - created_utc) / 3600 > MAX_AGE_HOURS)

/-- One post of the `subreddit.new(limit=...)` scan, as phase 1 reads it. -/
structure Post where
  id : String
  created_utc : ℚ
  title : String
  selftext : String
  num_comments : Nat

/-- The per-post body of the phase-1 loop of main (tldr_runner.py lines
384-433): gates, then the `try` block (generate_tldr, `submission.reply`,
sticky).  On success the post id is marked processed and both counters
advance; the `except` arm (lines 432-433) only logs — the post is NOT
marked and no counter moves.  Returns
`(processed_posts, daily_tldrs, tldrs_generated)`. -/
def process_post_phase1 (now : ℚ) (dry_run genOk : Bool) (p : Post)
    (processed_posts : Finset String) (daily_tldrs tldrs_generated : Nat) :
    Finset String × Nat × Nat :=
  if is_too_old now p.created_utc then
    (processed_posts, daily_tldrs, tldrs_generated)
  else if p.id ∈ processed_posts then
    (processed_posts, daily_tldrs, tldrs_generated)
  else if p.selftext = "" then
    (processed_posts, daily_tldrs, tldrs_generated)
  else if count_words p.selftext < WORD_THRESHOLD then
    (processed_posts, daily_tldrs, tldrs_generated)
  else if dry_run then
    (insert p.id processed_posts, daily_tldrs, tldrs_generated)
  else if genOk then
    (insert p.id processed_posts, daily_tldrs + 1, tldrs_generated + 1)
  else
    (processed_posts, daily_tldrs, tldrs_generated)

end TldrRunner

/-! ### Concrete sample inputs used by the closed instantiations -/

/-- Sample selftext of 250 whitespace-separated words (no markdown markers),
meeting the runner's WORD_THRESHOLD exactly. -/
def body250 : String := String.intercalate " " (List.replicate 250 "w")

/-- Sample long post, fresh (created at the current time 0), unseen. -/
def sample_post : TldrRunner.Post :=
  { id := "p1", created_utc := 0, title := "T", selftext := body250,
    num_comments := 0 }

/-! ## Theorems -/

/-! ### Helper lemmas on the per-user reply tracking -/

theorem lookup_user_bump_new (a : String) (now : ℚ)
    (m : List (String × UserData)) (h : lookup_user a m = none) :
    lookup_user a (bump_user a now m) = some ⟨1, now⟩ := by
  induction m with
  | nil => simp [bump_user, lookup_user]
  | cons kv rest ih =>
    obtain ⟨k, v⟩ := kv
    by_cases hk : k = a
    · simp [lookup_user, hk] at h
    · simp only [lookup_user, if_neg hk] at h
      simp only [bump_user, if_neg (by simpa using hk)]
      simp [lookup_user, if_neg hk, ih h]

theorem lookup_user_bump_some (a b : String) (now : ℚ)
    (m : List (String × UserData)) (u : UserData)
    (h : lookup_user a m = some u) :
    ∃ u', lookup_user a (bump_user b now m) = some u' ∧
      u.count ≤ u'.count ∧ u'.first_reply_time = u.first_reply_time := by
  induction m with
  | nil => simp [lookup_user] at h
  | cons kv rest ih =>
    obtain ⟨k, v⟩ := kv
    by_cases hkb : k = b
    · subst hkb
      by_cases hka : k = a
      · simp only [lookup_user, if_pos hka] at h
        obtain rfl := (Option.some_injective _ h).symm
        exact ⟨⟨u.count + 1, u.first_reply_time⟩,
          by simp [bump_user, lookup_user, hka], Nat.le_succ _, rfl⟩
      · simp only [lookup_user, if_neg hka] at h
        exact ⟨u, by simp [bump_user, lookup_user, hka, h], le_refl _, rfl⟩
    · by_cases hka : k = a
      · simp only [lookup_user, if_pos hka] at h
        obtain rfl := (Option.some_injective _ h).symm
        refine ⟨u, ?_, le_refl _, rfl⟩
        rw [bump_user, if_neg hkb]
        simp [lookup_user, if_pos hka]
      · simp only [lookup_user, if_neg hka] at h
        obtain ⟨u', h1, h2, h3⟩ := ih h
        exact ⟨u', by simp [bump_user, lookup_user, hka, if_neg hkb, h1], h2, h3⟩

theorem lookup_user_bump_opt_some (a : String) (author : Option String)
    (now : ℚ) (m : List (String × UserData)) (u : UserData)
    (h : lookup_user a m = some u) :
    ∃ u', lookup_user a (bump_user_opt author now m) = some u' ∧
      u.count ≤ u'.count ∧ u'.first_reply_time = u.first_reply_time := by
  cases author with
  | none => exact ⟨u, h, le_refl _, rfl⟩
  | some b => exact lookup_user_bump_some a b now m u h

/-! ### Helper lemmas on the dispatch steps and runs -/

theorem process_inbox_item_recent_cases (now : ℚ)
    (hostPat botPat : String → Bool) (r : Option (List String))
    (genOk dry_run : Bool) (item : InboxItem) (s : ReplyState) :
    (process_inbox_item now hostPat botPat r genOk dry_run item
        s).1.recent_user_replies = s.recent_user_replies ∨
    (process_inbox_item now hostPat botPat r genOk dry_run item
        s).1.recent_user_replies =
      bump_user_opt item.author now s.recent_user_replies := by
  simp only [process_inbox_item]
  split_ifs <;> first
  | exact Or.inl rfl
  | exact Or.inr rfl

set_option maxHeartbeats 1000000 in
theorem process_summon_comment_recent_cases (now : ℚ)
    (summonPat hostPat botPat : String → Bool) (r : Option (List String))
    (genOk dry_run : Bool) (bot_username : String) (c : SummonComment)
    (s : SummonState) :
    (process_summon_comment now summonPat hostPat botPat r genOk dry_run
        bot_username c s).1.recent_user_replies = s.recent_user_replies ∨
    (process_summon_comment now summonPat hostPat botPat r genOk dry_run
        bot_username c s).1.recent_user_replies =
      bump_user_opt c.author now s.recent_user_replies := by
  simp only [process_summon_comment]
  split_ifs <;> first
  | exact Or.inl rfl
  | exact Or.inr rfl

set_option maxHeartbeats 1000000 in
theorem process_summon_post_recent_cases (now : ℚ)
    (summonPat hostPat botPat : String → Bool) (r : Option (List String))
    (genOk dry_run : Bool) (bot_username : String) (p : SummonPost)
    (s : SummonState) :
    (process_summon_post now summonPat hostPat botPat r genOk dry_run
        bot_username p s).1.recent_user_replies = s.recent_user_replies ∨
    (process_summon_post now summonPat hostPat botPat r genOk dry_run
        bot_username p s).1.recent_user_replies =
      bump_user_opt p.author now s.recent_user_replies := by
  simp only [process_summon_post]
  split_ifs <;> first
  | exact Or.inl rfl
  | exact Or.inr rfl

/-- Preservation of one user's entry through a list of recent-map rewrites:
each element of the chain is the identity or a `bump_user_opt`. -/
theorem lookup_user_preserved_of_cases
    (m m' : List (String × UserData)) (author : Option String) (now : ℚ)
    (hc : m' = m ∨ m' = bump_user_opt author now m)
    (a : String) (u : UserData) (h : lookup_user a m = some u) :
    ∃ u', lookup_user a m' = some u' ∧ u.count ≤ u'.count := by
  rcases hc with rfl | rfl
  · exact ⟨u, h, le_refl _⟩
  · obtain ⟨u', h1, h2, _⟩ := lookup_user_bump_opt_some a author now m u h
    exact ⟨u', h1, h2⟩

theorem inbox_foldl_recent_preserved (now : ℚ)
    (hostPat botPat : String → Bool) (r : Option (List String))
    (genOk : String → Bool) (dry_run : Bool) (items : List InboxItem) :
    ∀ (acc : ReplyState × Nat) (a : String) (u : UserData),
      lookup_user a acc.1.recent_user_replies = some u →
      ∃ u', lookup_user a
          (items.foldl (inbox_fold_step now hostPat botPat r genOk dry_run)
            acc).1.recent_user_replies = some u' ∧ u.count ≤ u'.count := by
  induction items with
  | nil => exact fun acc a u h => ⟨u, h, le_refl _⟩
  | cons item rest ih =>
    intro acc a u h
    rw [List.foldl_cons]
    by_cases hcap : Config.MAX_REPLIES_PER_RUN ≤ acc.2
    · exact ih _ a u (by rwa [inbox_fold_step, if_pos hcap])
    · obtain ⟨u', h1, h2⟩ := lookup_user_preserved_of_cases _ _ item.author now
        (process_inbox_item_recent_cases now hostPat botPat r (genOk item.id)
          dry_run item acc.1) a u h
      obtain ⟨u'', h3, h4⟩ := ih (inbox_fold_step now hostPat botPat r genOk
        dry_run acc item) a u' (by rwa [inbox_fold_step, if_neg hcap])
      exact ⟨u'', h3, le_trans h2 h4⟩

theorem summon_comment_foldl_recent_preserved (now : ℚ)
    (summonPat hostPat botPat : String → Bool) (r : Option (List String))
    (genOk : String → Bool) (dry_run : Bool) (bot_username : String)
    (comments : List SummonComment) :
    ∀ (acc : SummonState × Nat) (a : String) (u : UserData),
      lookup_user a acc.1.recent_user_replies = some u →
      ∃ u', lookup_user a
          (comments.foldl (summon_comment_fold_step now summonPat hostPat
            botPat r genOk dry_run bot_username)
            acc).1.recent_user_replies = some u' ∧ u.count ≤ u'.count := by
  induction comments with
  | nil => exact fun acc a u h => ⟨u, h, le_refl _⟩
  | cons c rest ih =>
    intro acc a u h
    rw [List.foldl_cons]
    by_cases hcap : Config.MAX_REPLIES_PER_RUN ≤ acc.2
    · exact ih _ a u (by rwa [summon_comment_fold_step, if_pos hcap])
    · obtain ⟨u', h1, h2⟩ := lookup_user_preserved_of_cases _ _ c.author now
        (process_summon_comment_recent_cases now summonPat hostPat botPat r
          (genOk c.id) dry_run bot_username c acc.1) a u h
      obtain ⟨u'', h3, h4⟩ := ih (summon_comment_fold_step now summonPat
        hostPat botPat r genOk dry_run bot_username acc c) a u'
        (by rwa [summon_comment_fold_step, if_neg hcap])
      exact ⟨u'', h3, le_trans h2 h4⟩

theorem summon_post_foldl_recent_preserved (now : ℚ)
    (summonPat hostPat botPat : String → Bool) (r : Option (List String))
    (genOk : String → Bool) (dry_run : Bool) (bot_username : String)
    (posts : List SummonPost) :
    ∀ (acc : SummonState × Nat) (a : String) (u : UserData),
      lookup_user a acc.1.recent_user_replies = some u →
      ∃ u', lookup_user a
          (posts.foldl (summon_post_fold_step now summonPat hostPat
            botPat r genOk dry_run bot_username)
            acc).1.recent_user_replies = some u' ∧ u.count ≤ u'.count := by
  induction posts with
  | nil => exact fun acc a u h => ⟨u, h, le_refl _⟩
  | cons p rest ih =>
    intro acc a u h
    rw [List.foldl_cons]
    by_cases hcap : Config.MAX_REPLIES_PER_RUN ≤ acc.2
    · exact ih _ a u (by rwa [summon_post_fold_step, if_pos hcap])
    · obtain ⟨u', h1, h2⟩ := lookup_user_preserved_of_cases _ _ p.author now
        (process_summon_post_recent_cases now summonPat hostPat botPat r
          (genOk ("post_" ++ p.id)) dry_run bot_username p acc.1) a u h
      obtain ⟨u'', h3, h4⟩ := ih (summon_post_fold_step now summonPat
        hostPat botPat r genOk dry_run bot_username acc p) a u'
        (by rwa [summon_post_fold_step, if_neg hcap])
      exact ⟨u'', h3, le_trans h2 h4⟩

theorem bump_user_length_mono (a : String) (now : ℚ)
    (m : List (String × UserData)) :
    m.length ≤ (bump_user a now m).length := by
  induction m with
  | nil => simp [bump_user]
  | cons kv rest ih =>
    obtain ⟨k, v⟩ := kv
    by_cases hk : k = a <;> simp [bump_user, hk] <;> exact ih

theorem bump_user_opt_length_mono (author : Option String) (now : ℚ)
    (m : List (String × UserData)) :
    m.length ≤ (bump_user_opt author now m).length := by
  cases author with
  | none => exact le_refl _
  | some a => exact bump_user_length_mono a now m

theorem recent_length_mono_of_cases
    (m m' : List (String × UserData)) (author : Option String) (now : ℚ)
    (hc : m' = m ∨ m' = bump_user_opt author now m) :
    m.length ≤ m'.length := by
  rcases hc with rfl | rfl
  · exact le_refl _
  · exact bump_user_opt_length_mono author now m

theorem inbox_foldl_recent_length (now : ℚ)
    (hostPat botPat : String → Bool) (r : Option (List String))
    (genOk : String → Bool) (dry_run : Bool) (items : List InboxItem) :
    ∀ acc : ReplyState × Nat,
      acc.1.recent_user_replies.length ≤
        (items.foldl (inbox_fold_step now hostPat botPat r genOk dry_run)
          acc).1.recent_user_replies.length := by
  induction items with
  | nil => exact fun acc => le_refl _
  | cons item rest ih =>
    intro acc
    rw [List.foldl_cons]
    refine le_trans ?_ (ih _)
    rw [inbox_fold_step]
    by_cases hcap : Config.MAX_REPLIES_PER_RUN ≤ acc.2
    · rw [if_pos hcap]
    · rw [if_neg hcap]
      exact recent_length_mono_of_cases _ _ item.author now
        (process_inbox_item_recent_cases now hostPat botPat r (genOk item.id)
          dry_run item acc.1)

theorem summon_comment_foldl_recent_length (now : ℚ)
    (summonPat hostPat botPat : String → Bool) (r : Option (List String))
    (genOk : String → Bool) (dry_run : Bool) (bot_username : String)
    (comments : List SummonComment) :
    ∀ acc : SummonState × Nat,
      acc.1.recent_user_replies.length ≤
        (comments.foldl (summon_comment_fold_step now summonPat hostPat
          botPat r genOk dry_run bot_username)
          acc).1.recent_user_replies.length := by
  induction comments with
  | nil => exact fun acc => le_refl _
  | cons c rest ih =>
    intro acc
    rw [List.foldl_cons]
    refine le_trans ?_ (ih _)
    rw [summon_comment_fold_step]
    by_cases hcap : Config.MAX_REPLIES_PER_RUN ≤ acc.2
    · rw [if_pos hcap]
    · rw [if_neg hcap]
      exact recent_length_mono_of_cases _ _ c.author now
        (process_summon_comment_recent_cases now summonPat hostPat botPat r
          (genOk c.id) dry_run bot_username c acc.1)

theorem summon_post_foldl_recent_length (now : ℚ)
    (summonPat hostPat botPat : String → Bool) (r : Option (List String))
    (genOk : String → Bool) (dry_run : Bool) (bot_username : String)
    (posts : List SummonPost) :
    ∀ acc : SummonState × Nat,
      acc.1.recent_user_replies.length ≤
        (posts.foldl (summon_post_fold_step now summonPat hostPat
          botPat r genOk dry_run bot_username)
          acc).1.recent_user_replies.length := by
  induction posts with
  | nil => exact fun acc => le_refl _
  | cons p rest ih =>
    intro acc
    rw [List.foldl_cons]
    refine le_trans ?_ (ih _)
    rw [summon_post_fold_step]
    by_cases hcap : Config.MAX_REPLIES_PER_RUN ≤ acc.2
    · rw [if_pos hcap]
    · rw [if_neg hcap]
      exact recent_length_mono_of_cases _ _ p.author now
        (process_summon_post_recent_cases now summonPat hostPat botPat r
          (genOk ("post_" ++ p.id)) dry_run bot_username p acc.1)

/-- C1: check_user_cooldown skips exactly the present, non-falsy authors with
count at least the grace allowance G (SAME_USER_REPLIES_BEFORE_COOLDOWN) and
strictly less than W (SAME_USER_COOLDOWN_HOURS) hours since their recorded
first_reply_time; a null author or one with no recorded entry is never
skipped.  The closed conjuncts are the spec's G=2, W=1h scenario: a user at
count 1 is not skipped, a user at count 2 is skipped 1800 s after the first
reply and admitted at 3600 s. -/
theorem user_cooldown_skip_iff :
    (∀ (now : ℚ) (author : Option String) (recent : List (String × UserData)),
      check_user_cooldown now author recent = true ↔
        ∃ a u, author = some a ∧ a ≠ "" ∧ lookup_user a recent = some u ∧
          Config.SAME_USER_REPLIES_BEFORE_COOLDOWN ≤ u.count ∧
          (now - u.first_reply_time) / 3600 < Config.SAME_USER_COOLDOWN_HOURS) ∧
    (∀ (now : ℚ) (recent : List (String × UserData)),
      check_user_cooldown now none recent = false) ∧
    check_user_cooldown 100 (some "alice") [("alice", ⟨1, 0⟩)] = false ∧
    check_user_cooldown 1800 (some "alice") [("alice", ⟨2, 0⟩)] = true ∧
    check_user_cooldown 3600 (some "alice") [("alice", ⟨2, 0⟩)] = false := by
  refine ⟨?_, ?_,
    by norm_num [check_user_cooldown, lookup_user,
      Config.SAME_USER_REPLIES_BEFORE_COOLDOWN, Config.SAME_USER_COOLDOWN_HOURS,
      decide_eq_true_eq] <;> decide,
    by norm_num [check_user_cooldown, lookup_user,
      Config.SAME_USER_REPLIES_BEFORE_COOLDOWN, Config.SAME_USER_COOLDOWN_HOURS,
      decide_eq_true_eq] <;> decide,
    by norm_num [check_user_cooldown, lookup_user,
      Config.SAME_USER_REPLIES_BEFORE_COOLDOWN, Config.SAME_USER_COOLDOWN_HOURS,
      decide_eq_true_eq]⟩
  · intro now author recent
    cases author with
    | none => simp [check_user_cooldown]
    | some a =>
      by_cases ha : a = ""
      · subst ha
        simp [check_user_cooldown]
      · simp only [check_user_cooldown, if_neg ha]
        cases hl : lookup_user a recent with
        | none => simp [ha, hl]
        | some u =>
          by_cases hc : u.count < Config.SAME_USER_REPLIES_BEFORE_COOLDOWN
          · simp only [hl, if_pos hc]
            constructor
            · intro h; exact absurd h (by simp)
            · rintro ⟨a', u', ha', _, hl', hcount, _⟩
              obtain rfl := Option.some_injective _ ha'
              rw [hl] at hl'
              obtain rfl := Option.some_injective _ hl'
              omega
          · simp only [hl, if_neg hc, decide_eq_true_eq]
            constructor
            · intro h
              exact ⟨a, u, rfl, ha, hl, by omega, h⟩
            · rintro ⟨a', u', ha', _, hl', _, hlt⟩
              obtain rfl := Option.some_injective _ ha'
              rw [hl] at hl'
              obtain rfl := Option.some_injective _ hl'
              exact hlt
  · intro now recent
    simp [check_user_cooldown]

namespace TldrRunner

/-- C2: get_next_milestone computes exactly the spec's contract — the highest
ladder value of COMMENT_MILESTONES that is at most the comment count and
strictly above the last watermark, with 0 for "none": it equals the
spec-worded `next_milestone_of_spec` everywhere, every qualifying ladder
value is bounded by the result, a nonzero result itself qualifies, and in
particular (count 45, watermark 0) yields 20 and (count 63, watermark 20)
yields 50. -/
theorem next_milestone_correct :
    (∀ c w, get_next_milestone c w = next_milestone_of_spec c w) ∧
    (∀ c w m, m ∈ COMMENT_MILESTONES → m ≤ c → w < m →
      m ≤ get_next_milestone c w) ∧
    (∀ c w, get_next_milestone c w ≠ 0 →
      get_next_milestone c w ∈ COMMENT_MILESTONES ∧
      get_next_milestone c w ≤ c ∧ w < get_next_milestone c w) ∧
    get_next_milestone 45 0 = 20 ∧ get_next_milestone 63 20 = 50 := by
  refine ⟨?_, ?_, ?_, by decide, by decide⟩
  · intro c w
    simp only [get_next_milestone, next_milestone_of_spec, COMMENT_MILESTONES,
      List.foldl_cons, List.foldl_nil, List.filter_cons, List.filter_nil,
      Bool.and_eq_true, decide_eq_true_eq]
    split_ifs <;> simp_all <;> omega
  · intro c w m hm hle hgt
    simp only [COMMENT_MILESTONES, List.mem_cons, List.not_mem_nil, or_false] at hm
    simp only [get_next_milestone, COMMENT_MILESTONES, List.foldl_cons,
      List.foldl_nil]
    split_ifs <;> omega
  · intro c w h
    simp only [get_next_milestone, COMMENT_MILESTONES, List.foldl_cons,
      List.foldl_nil] at h ⊢
    simp only [List.mem_cons, List.not_mem_nil, or_false]
    split_ifs at h ⊢ <;> omega

/-- C4: check_daily_limit compares the persisted reset date with today's
calendar date; on mismatch it writes counter 0 and today's date before the
comparison with MAX_TLDR_PER_DAY (so the check admits), and once the counter
has reached the cap with the date already today, it denies and changes
nothing.  The closed conjunct is the spec's reset scenario: counter 40,
yesterday's date, cap 40. -/
theorem daily_limit_reset_and_cap :
    (∀ (s : QuotaState) (today : String), s.daily_reset_date ≠ some today →
      check_daily_limit today s = (true, ⟨0, some today⟩)) ∧
    (∀ (s : QuotaState) (today : String), s.daily_reset_date = some today →
      MAX_TLDR_PER_DAY ≤ s.daily_tldrs →
      check_daily_limit today s = (false, s)) ∧
    check_daily_limit "2026-10-12" ⟨40, some "2026-10-11"⟩ =
      (true, ⟨0, some "2026-10-12"⟩) := by
  refine ⟨?_, ?_, by decide⟩
  · intro s today h
    simp [check_daily_limit, h, MAX_TLDR_PER_DAY]
  · intro s today h hge
    simp [check_daily_limit, h, hge]

end TldrRunner

/-- C8: when the refresh call raises (`refreshResult = none`),
get_cached_moderators returns the previously cached list lower-cased and the
`moderator_cache` state field exactly as it was, `last_refresh` included;
the state field can change at all only when the cached list is empty or its
age has reached cache_max_age, and a nonempty cache younger than the TTL is
served without touching the refresh outcome. -/
theorem moderator_cache_stale_on_error :
    (∀ (now : ℚ) (cache : ModCache),
      get_cached_moderators now none cache =
        ((cache.moderators.map String.toLower).toFinset, cache)) ∧
    (∀ (now : ℚ) (r : Option (List String)) (cache : ModCache),
      (get_cached_moderators now r cache).2 ≠ cache →
        cache.moderators = [] ∨ cache_max_age ≤ now - cache.last_refresh) ∧
    (∀ (now : ℚ) (r : Option (List String)) (cache : ModCache),
      cache.moderators ≠ [] → now - cache.last_refresh < cache_max_age →
      get_cached_moderators now r cache =
        ((cache.moderators.map String.toLower).toFinset, cache)) := by
  refine ⟨?_, ?_, ?_⟩
  · intro now cache
    unfold get_cached_moderators
    split_ifs <;> rfl
  · intro now r cache h
    unfold get_cached_moderators at h
    split_ifs at h with hcond
    · exact absurd rfl h
    · rcases not_and_or.mp hcond with h1 | h2
      · exact Or.inl (not_not.mp h1)
      · exact Or.inr (le_of_not_lt h2)
  · intro now r cache h1 h2
    simp [get_cached_moderators, if_pos (And.intro h1 h2)]

/-- Closed instantiation of `moderator_cache_stale_on_error`: a cache whose
age equals the TTL is refreshed (its state field changes), and the theorem
then places it in the stale-or-empty case. -/
theorem moderator_cache_stale_on_error_witness :
    (get_cached_moderators 259200 (some ["n"]) ⟨["m"], 0⟩).2 ≠ ⟨["m"], 0⟩ ∧
      ((["m"] : List String) = [] ∨ cache_max_age ≤ (259200 : ℚ) - 0) := by
  have h1 : (get_cached_moderators 259200 (some ["n"]) ⟨["m"], 0⟩).2 ≠
      ⟨["m"], 0⟩ := by
    norm_num [get_cached_moderators, cache_max_age, Config.MOD_CACHE_REFRESH_DAYS,
      ModCache.mk.injEq]
  exact ⟨h1,
    moderator_cache_stale_on_error.2.1 259200 (some ["n"]) ⟨["m"], 0⟩ h1⟩

/-- C9: first_reply_time is written exactly once per user — at the first
recorded action, where the entry `{count: 1, first_reply_time: now}` is
created — and every later recorded action (bump_user, any author, any time,
and any whole sequence of such actions) leaves an existing entry's
first_reply_time untouched.  In particular it is never overwritten while
the cooldown window is still open, and a replacement could only ever happen
by the entry's absence, which the update never produces. -/
theorem first_reply_time_set_once :
    (∀ (a : String) (now : ℚ) (m : List (String × UserData)),
      lookup_user a m = none →
      lookup_user a (bump_user a now m) = some ⟨1, now⟩) ∧
    (∀ (a b : String) (now : ℚ) (m : List (String × UserData)) (u : UserData),
      lookup_user a m = some u →
      ∃ u', lookup_user a (bump_user b now m) = some u' ∧
        u'.first_reply_time = u.first_reply_time) ∧
    (∀ (actions : List (String × ℚ)) (m : List (String × UserData))
        (a : String) (u : UserData),
      lookup_user a m = some u →
      ∃ u', lookup_user a
          (actions.foldl (fun acc p => bump_user p.1 p.2 acc) m) = some u' ∧
        u'.first_reply_time = u.first_reply_time) := by
  refine ⟨lookup_user_bump_new, ?_, ?_⟩
  · intro a b now m u h
    obtain ⟨u', h1, _, h3⟩ := lookup_user_bump_some a b now m u h
    exact ⟨u', h1, h3⟩
  · intro actions
    induction actions with
    | nil => exact fun m a u h => ⟨u, h, rfl⟩
    | cons p rest ih =>
      intro m a u h
      obtain ⟨u', h1, _, h3⟩ := lookup_user_bump_some a p.1 p.2 m u h
      obtain ⟨u'', h4, h5⟩ := ih _ a u' h1
      rw [List.foldl_cons]
      exact ⟨u'', h4, h5.trans h3⟩

/-- Closed instantiation of `first_reply_time_set_once`: the first action
for a fresh user writes count 1 and the action's own timestamp. -/
theorem first_reply_time_set_once_witness :
    lookup_user "alice" ([] : List (String × UserData)) = none ∧
      lookup_user "alice" (bump_user "alice" 5 []) = some ⟨1, 5⟩ :=
  ⟨rfl, first_reply_time_set_once.1 "alice" 5 [] rfl⟩

/-- C10: neither check_inbox_replies nor check_for_summons ever removes a
`recent_user_replies` entry or decreases a count: every user present before
a run is present afterwards with a count at least as large, and the map's
size never shrinks — there is no capacity bound or truncation applied to it
(its writeback `state["recent_user_replies"] = recent_user_replies` stores
the map whole, unlike the dedup ledgers' `list(s)[-K:]`, `set_writeback`). -/
theorem recent_user_replies_never_evicted :
    (∀ (now : ℚ) (hostPat botPat : String → Bool)
        (r : Option (List String)) (genOk : String → Bool) (dry_run : Bool)
        (items : List InboxItem) (s : ReplyState) (a : String) (u : UserData),
      lookup_user a s.recent_user_replies = some u →
      ∃ u', lookup_user a (check_inbox_replies now hostPat botPat r genOk
          dry_run items s).1.recent_user_replies = some u' ∧
        u.count ≤ u'.count) ∧
    (∀ (now : ℚ) (summonPat hostPat botPat : String → Bool)
        (r : Option (List String)) (genOk : String → Bool) (dry_run : Bool)
        (bot_username : String) (comments : List SummonComment)
        (posts : List SummonPost) (s : SummonState) (a : String)
        (u : UserData),
      lookup_user a s.recent_user_replies = some u →
      ∃ u', lookup_user a (check_for_summons now summonPat hostPat botPat r
          genOk dry_run bot_username comments posts
          s).1.recent_user_replies = some u' ∧ u.count ≤ u'.count) ∧
    (∀ (now : ℚ) (hostPat botPat : String → Bool)
        (r : Option (List String)) (genOk : String → Bool) (dry_run : Bool)
        (items : List InboxItem) (s : ReplyState),
      s.recent_user_replies.length ≤
        (check_inbox_replies now hostPat botPat r genOk dry_run items
          s).1.recent_user_replies.length) ∧
    (∀ (now : ℚ) (summonPat hostPat botPat : String → Bool)
        (r : Option (List String)) (genOk : String → Bool) (dry_run : Bool)
        (bot_username : String) (comments : List SummonComment)
        (posts : List SummonPost) (s : SummonState),
      s.recent_user_replies.length ≤
        (check_for_summons now summonPat hostPat botPat r genOk dry_run
          bot_username comments posts s).1.recent_user_replies.length) := by
  refine ⟨?_, ?_, ?_, ?_⟩
  · intro now hostPat botPat r genOk dry_run items s a u h
    exact inbox_foldl_recent_preserved now hostPat botPat r genOk dry_run
      items (s, 0) a u h
  · intro now summonPat hostPat botPat r genOk dry_run bot comments posts
      s a u h
    obtain ⟨u', h1, h2⟩ := summon_comment_foldl_recent_preserved now summonPat
      hostPat botPat r genOk dry_run bot comments (s, 0) a u h
    obtain ⟨u'', h3, h4⟩ := summon_post_foldl_recent_preserved now summonPat
      hostPat botPat r genOk dry_run bot posts _ a u' h1
    exact ⟨u'', h3, h2.trans h4⟩
  · intro now hostPat botPat r genOk dry_run items s
    exact inbox_foldl_recent_length now hostPat botPat r genOk dry_run
      items (s, 0)
  · intro now summonPat hostPat botPat r genOk dry_run bot comments posts s
    exact le_trans
      (summon_comment_foldl_recent_length now summonPat hostPat botPat r
        genOk dry_run bot comments (s, 0))
      (summon_post_foldl_recent_length now summonPat hostPat botPat r genOk
        dry_run bot posts _)

/-- Closed instantiation of `recent_user_replies_never_evicted`: a recorded
user survives an (empty-stream) inbox run with count intact. -/
theorem recent_user_replies_never_evicted_witness :
    lookup_user "bob" [("bob", (⟨2, 0⟩ : UserData))] = some ⟨2, 0⟩ ∧
      ∃ u', lookup_user "bob" (check_inbox_replies 0 (fun _ => false)
          (fun _ => false) none (fun _ => true) false []
          ⟨∅, [("bob", ⟨2, 0⟩)], ⟨[], 0⟩⟩).1.recent_user_replies = some u' ∧
        (⟨2, 0⟩ : UserData).count ≤ u'.count :=
  ⟨rfl, recent_user_replies_never_evicted.1 0 (fun _ => false)
    (fun _ => false) none (fun _ => true) false []
    ⟨∅, [("bob", ⟨2, 0⟩)], ⟨[], 0⟩⟩ "bob" ⟨2, 0⟩ rfl⟩

/-- C6: an item that reaches the cooldown gate (it passed the dedup, age,
origin, deleted-body, bot and hostility checks) and is rejected there — a
non-moderator author whose cooldown check says skip — leaves the dedup
ledger and the per-user reply map exactly as they were and sends nothing,
in both the inbox stream and the summon comment stream; the only field the
step may have touched is the moderator cache's own TTL bookkeeping, done by
the `is_moderator` lookup itself.  The unmarked item is therefore seen
again on the next run. -/
theorem cooldown_skip_leaves_state :
    (∀ (now : ℚ) (hostPat botPat : String → Bool)
        (r : Option (List String)) (genOk dry_run : Bool) (item : InboxItem)
        (s : ReplyState),
      item.id ∉ s.replied_to →
      is_too_old now item.created_utc = false →
      item.subreddit_name.toLower = Config.SUBREDDIT.toLower →
      ¬(item.body = "" ∨ item.body = "[deleted]") →
      is_likely_bot botPat item.author = false →
      is_hostile_comment hostPat item.body = false →
      (is_moderator now r item.author s.moderator_cache).1 = false →
      check_user_cooldown now item.author s.recent_user_replies = true →
      process_inbox_item now hostPat botPat r genOk dry_run item s =
        ({ s with moderator_cache :=
            (is_moderator now r item.author s.moderator_cache).2 }, false)) ∧
    (∀ (now : ℚ) (summonPat hostPat botPat : String → Bool)
        (r : Option (List String)) (genOk dry_run : Bool)
        (bot_username : String) (c : SummonComment) (s : SummonState),
      c.id ∉ s.summon_responses →
      is_too_old now c.created_utc = false →
      c.author ≠ some bot_username →
      ¬(c.body = "" ∨ c.body = "[deleted]") →
      is_summon summonPat c.body = true →
      is_likely_bot botPat c.author = false →
      is_hostile_comment hostPat c.body = false →
      (is_moderator now r c.author s.moderator_cache).1 = false →
      check_user_cooldown now c.author s.recent_user_replies = true →
      process_summon_comment now summonPat hostPat botPat r genOk dry_run
          bot_username c s =
        ({ s with moderator_cache :=
            (is_moderator now r c.author s.moderator_cache).2 }, false)) := by
  constructor
  · intro now hostPat botPat r genOk dry_run item s h1 h2 h3 h4 h5 h6 hmod hcd
    simp only [process_inbox_item]
    rw [if_neg h1, if_neg (by simp [h2]), if_neg (by simp [h3]), if_neg h4,
      if_neg (by simp [h5]), if_neg (by simp [h6]), if_pos ⟨hmod, hcd⟩]
  · intro now summonPat hostPat botPat r genOk dry_run bot c s
      h1 h2 h3 h4 h5 h6 h7 hmod hcd
    simp only [process_summon_comment]
    rw [if_neg h1, if_neg (by simp [h2]), if_neg h3, if_neg h4,
      if_neg (by simp [h5]), if_neg (by simp [h6]), if_neg (by simp [h7]),
      if_pos ⟨hmod, hcd⟩]

/-- Freshness case of get_cached_moderators, for instantiations: a nonempty
cache younger than the TTL is served as is. -/
theorem get_cached_moderators_fresh (now : ℚ) (r : Option (List String))
    (cache : ModCache) (h1 : cache.moderators ≠ [])
    (h2 : now - cache.last_refresh < cache_max_age) :
    get_cached_moderators now r cache =
      ((cache.moderators.map String.toLower).toFinset, cache) := by
  simp [get_cached_moderators, if_pos (And.intro h1 h2)]

/-- Closed instantiation of `cooldown_skip_leaves_state`: u/bob is at count
2 with the window open (1800 s of 3600), is not a moderator (the cache is
empty and the refresh errors), and the step changes neither the ledger nor
the reply map. -/
theorem cooldown_skip_leaves_state_witness :
    check_user_cooldown 1800 (some "bob") [("bob", ⟨2, 0⟩)] = true ∧
      process_inbox_item 1800 (fun _ => false) (fun _ => false) none true
          false ⟨"i1", 1800, "accelerate", "hello", some "bob"⟩
          ⟨∅, [("bob", ⟨2, 0⟩)], ⟨[], 0⟩⟩ =
        ({ (⟨∅, [("bob", ⟨2, 0⟩)], ⟨[], 0⟩⟩ : ReplyState) with
            moderator_cache := (is_moderator 1800 none (some "bob")
              ⟨[], 0⟩).2 }, false) := by
  have hcd : check_user_cooldown 1800 (some "bob") [("bob", ⟨2, 0⟩)] = true := by
    norm_num [check_user_cooldown, lookup_user,
      Config.SAME_USER_REPLIES_BEFORE_COOLDOWN, Config.SAME_USER_COOLDOWN_HOURS,
      decide_eq_true_eq] <;> decide
  have h2 : is_too_old (1800 : ℚ) 1800 = false := by
    norm_num [is_too_old, Config.MAX_AGE_HOURS, decide_eq_false_iff_not]
  have hmod : (is_moderator 1800 none (some "bob") ⟨[], 0⟩).1 = false := by
    simp [is_moderator, get_cached_moderators]
  exact ⟨hcd, cooldown_skip_leaves_state.1 1800 (fun _ => false)
    (fun _ => false) none true false
    ⟨"i1", 1800, "accelerate", "hello", some "bob"⟩
    ⟨∅, [("bob", ⟨2, 0⟩)], ⟨[], 0⟩⟩
    (by simp) h2 rfl (by decide) (by decide) rfl hmod hcd⟩

/-- C7: the cooldown gate is bypassed unconditionally for a cached
moderator: is_moderator is false for a null author, and whenever
is_moderator answers true for the item's author, the inbox step admits the
item (the reply is sent on a successful generation) with no condition on
check_user_cooldown at all — the gate `not is_moderator(...) and
check_user_cooldown(...)` short-circuits. -/
theorem moderator_bypass :
    (∀ (now : ℚ) (r : Option (List String)) (cache : ModCache),
      (is_moderator now r none cache).1 = false) ∧
    (∀ (now : ℚ) (hostPat botPat : String → Bool)
        (r : Option (List String)) (item : InboxItem) (s : ReplyState),
      item.id ∉ s.replied_to →
      is_too_old now item.created_utc = false →
      item.subreddit_name.toLower = Config.SUBREDDIT.toLower →
      ¬(item.body = "" ∨ item.body = "[deleted]") →
      is_likely_bot botPat item.author = false →
      is_hostile_comment hostPat item.body = false →
      (is_moderator now r item.author s.moderator_cache).1 = true →
      (process_inbox_item now hostPat botPat r true false item s).2 = true) := by
  constructor
  · intro now r cache
    rfl
  · intro now hostPat botPat r item s h1 h2 h3 h4 h5 h6 hmod
    simp only [process_inbox_item]
    rw [if_neg h1, if_neg (by simp [h2]), if_neg (by simp [h3]), if_neg h4,
      if_neg (by simp [h5]), if_neg (by simp [h6]),
      if_neg (by simp [hmod])]
    simp

/-- Closed instantiation of `moderator_bypass`: u/modx is in the cached
moderator set, is at count 5 with the window open — so check_user_cooldown
says skip — and the step still replies. -/
theorem moderator_bypass_witness :
    check_user_cooldown 1800 (some "modx") [("modx", ⟨5, 0⟩)] = true ∧
      (process_inbox_item 1800 (fun _ => false) (fun _ => false) none true
          false ⟨"i1", 1800, "accelerate", "hello", some "modx"⟩
          ⟨∅, [("modx", ⟨5, 0⟩)], ⟨["modx"], 0⟩⟩).2 = true := by
  have hcd : check_user_cooldown 1800 (some "modx") [("modx", ⟨5, 0⟩)]
      = true := by
    norm_num [check_user_cooldown, lookup_user,
      Config.SAME_USER_REPLIES_BEFORE_COOLDOWN, Config.SAME_USER_COOLDOWN_HOURS,
      decide_eq_true_eq] <;> decide
  have h2 : is_too_old (1800 : ℚ) 1800 = false := by
    norm_num [is_too_old, Config.MAX_AGE_HOURS, decide_eq_false_iff_not]
  have hfresh : get_cached_moderators 1800 none ⟨["modx"], 0⟩ =
      (((["modx"] : List String).map String.toLower).toFinset,
        ⟨["modx"], 0⟩) := by
    exact get_cached_moderators_fresh 1800 none ⟨["modx"], 0⟩ (by decide)
      (by norm_num [cache_max_age, Config.MOD_CACHE_REFRESH_DAYS])
  have hmod : (is_moderator 1800 none (some "modx") ⟨["modx"], 0⟩).1
      = true := by
    simp only [is_moderator, hfresh]
    rw [if_neg (show ¬("modx" = "") by decide)]
    simp only [decide_eq_true_eq, List.mem_toFinset]
    exact List.mem_map_of_mem String.toLower (by simp)
  exact ⟨hcd, moderator_bypass.2 1800 (fun _ => false) (fun _ => false) none
    ⟨"i1", 1800, "accelerate", "hello", some "modx"⟩
    ⟨∅, [("modx", ⟨5, 0⟩)], ⟨["modx"], 0⟩⟩
    (by simp) h2 rfl (by decide) (by decide) rfl hmod⟩

/-- C5 (amended): when the generate-and-reply block raises on a candidate
that had passed every gate, the engine proceeds without raising in all four
streams, but marks the item's identifier dedup-terminal only in the inbox
reply stream and the two summon streams; the long-post TLDR stream of
tldr_runner's main leaves the failing post unmarked (and its counters
untouched), so that post is retried on a later run — its part here is
stated for every input with `dry_run = false` and a failing call, no gate
hypotheses needed, because every branch of that step then leaves the state
unchanged. -/
theorem error_marks_by_stream :
    (∀ (now : ℚ) (hostPat botPat : String → Bool)
        (r : Option (List String)) (item : InboxItem) (s : ReplyState),
      item.id ∉ s.replied_to →
      is_too_old now item.created_utc = false →
      item.subreddit_name.toLower = Config.SUBREDDIT.toLower →
      ¬(item.body = "" ∨ item.body = "[deleted]") →
      is_likely_bot botPat item.author = false →
      is_hostile_comment hostPat item.body = false →
      ((is_moderator now r item.author s.moderator_cache).1 = true ∨
        check_user_cooldown now item.author s.recent_user_replies = false) →
      process_inbox_item now hostPat botPat r false false item s =
        ({ s with replied_to := insert item.id s.replied_to,
                  moderator_cache :=
                    (is_moderator now r item.author s.moderator_cache).2 },
          false)) ∧
    (∀ (now : ℚ) (summonPat hostPat botPat : String → Bool)
        (r : Option (List String)) (bot_username : String)
        (c : SummonComment) (s : SummonState),
      c.id ∉ s.summon_responses →
      is_too_old now c.created_utc = false →
      c.author ≠ some bot_username →
      ¬(c.body = "" ∨ c.body = "[deleted]") →
      is_summon summonPat c.body = true →
      is_likely_bot botPat c.author = false →
      is_hostile_comment hostPat c.body = false →
      ((is_moderator now r c.author s.moderator_cache).1 = true ∨
        check_user_cooldown now c.author s.recent_user_replies = false) →
      process_summon_comment now summonPat hostPat botPat r false false
          bot_username c s =
        ({ s with summon_responses := insert c.id s.summon_responses,
                  moderator_cache :=
                    (is_moderator now r c.author s.moderator_cache).2 },
          false)) ∧
    (∀ (now : ℚ) (summonPat hostPat botPat : String → Bool)
        (r : Option (List String)) (bot_username : String)
        (p : SummonPost) (s : SummonState),
      "post_" ++ p.id ∉ s.summon_responses →
      is_too_old now p.created_utc = false →
      p.author ≠ some bot_username →
      is_summon summonPat (p.title ++ " " ++ p.selftext) = true →
      is_likely_bot botPat p.author = false →
      is_hostile_comment hostPat (p.title ++ " " ++ p.selftext) = false →
      ((is_moderator now r p.author s.moderator_cache).1 = true ∨
        check_user_cooldown now p.author s.recent_user_replies = false) →
      process_summon_post now summonPat hostPat botPat r false false
          bot_username p s =
        ({ s with
            summon_responses := insert ("post_" ++ p.id) s.summon_responses,
            moderator_cache :=
              (is_moderator now r p.author s.moderator_cache).2 },
          false)) ∧
    (∀ (now : ℚ) (p : TldrRunner.Post) (processed_posts : Finset String)
        (daily_tldrs tldrs_generated : Nat),
      TldrRunner.process_post_phase1 now false false p processed_posts
          daily_tldrs tldrs_generated =
        (processed_posts, daily_tldrs, tldrs_generated)) := by
  refine ⟨?_, ?_, ?_, ?_⟩
  · intro now hostPat botPat r item s h1 h2 h3 h4 h5 h6 hgate
    simp only [process_inbox_item]
    rw [if_neg h1, if_neg (by simp [h2]), if_neg (by simp [h3]), if_neg h4,
      if_neg (by simp [h5]), if_neg (by simp [h6]),
      if_neg (by rcases hgate with h | h <;> simp [h])]
    simp
  · intro now summonPat hostPat botPat r bot c s h1 h2 h3 h4 h5 h6 h7 hgate
    simp only [process_summon_comment]
    rw [if_neg h1, if_neg (by simp [h2]), if_neg h3, if_neg h4,
      if_neg (by simp [h5]), if_neg (by simp [h6]), if_neg (by simp [h7]),
      if_neg (by rcases hgate with h | h <;> simp [h])]
    simp
  · intro now summonPat hostPat botPat r bot p s h1 h2 h3 h4 h5 h6 hgate
    simp only [process_summon_post]
    rw [if_neg h1, if_neg (by simp [h2]), if_neg h3,
      if_neg (by simp [h4]), if_neg (by simp [h5]), if_neg (by simp [h6]),
      if_neg (by rcases hgate with h | h <;> simp [h])]
    simp
  · intro now p processed_posts daily_tldrs tldrs_generated
    simp only [TldrRunner.process_post_phase1]
    split_ifs <;> simp_all

set_option maxRecDepth 8192 in
/-- C5 (counterexample to the claim as stated): sample_post — fresh,
unseen, 250 words, so it passes every gate of the long-post TLDR stream,
as the success run (first conjunct) shows by marking and counting it — is
left entirely unmarked when the generate-or-reply call raises instead
(`genOk = false`): processed_posts stays empty, both counters stay 0, and
the post id is absent, contrary to "marks that item's identifier in the
corresponding dedup ledger" for this stream. -/
theorem tldr_error_does_not_mark :
    TldrRunner.process_post_phase1 0 false true sample_post ∅ 0 0 =
      ({"p1"}, 1, 1) ∧
    TldrRunner.process_post_phase1 0 false false sample_post ∅ 0 0 =
      (∅, 0, 0) ∧
    "p1" ∉ (TldrRunner.process_post_phase1 0 false false sample_post
      ∅ 0 0).1 := by
  have hwc : TldrRunner.count_words body250 = 250 := by decide
  have hne : body250 ≠ "" := by
    intro h
    rw [h] at hwc
    exact absurd hwc (by decide)
  have htoo : TldrRunner.is_too_old (0 : ℚ) 0 = false := by
    norm_num [TldrRunner.is_too_old, TldrRunner.MAX_AGE_HOURS,
      decide_eq_false_iff_not]
  have hb : TldrRunner.process_post_phase1 0 false false sample_post ∅ 0 0 =
      (∅, 0, 0) := by
    simp [TldrRunner.process_post_phase1, sample_post, htoo, hne, hwc,
      TldrRunner.WORD_THRESHOLD]
  refine ⟨?_, hb, by rw [hb]; simp⟩
  simp [TldrRunner.process_post_phase1, sample_post, htoo, hne, hwc,
    TldrRunner.WORD_THRESHOLD]

/-- Closed instantiation of `error_marks_by_stream`: an inbox reply whose
generation call fails is marked processed and nothing is sent. -/
theorem error_marks_by_stream_witness :
    process_inbox_item 1800 (fun _ => false) (fun _ => false) none false
        false ⟨"i1", 1800, "accelerate", "hello", some "alice"⟩
        ⟨∅, [], ⟨[], 0⟩⟩ =
      ({ (⟨∅, [], ⟨[], 0⟩⟩ : ReplyState) with
          replied_to := insert "i1" (∅ : Finset String),
          moderator_cache := (is_moderator 1800 none (some "alice")
            ⟨[], 0⟩).2 }, false) := by
  have h2 : is_too_old (1800 : ℚ) 1800 = false := by
    norm_num [is_too_old, Config.MAX_AGE_HOURS, decide_eq_false_iff_not]
  exact error_marks_by_stream.1 1800 (fun _ => false) (fun _ => false) none
    ⟨"i1", 1800, "accelerate", "hello", some "alice"⟩ ⟨∅, [], ⟨[], 0⟩⟩
    (by simp) h2 rfl (by decide) (by decide) rfl (Or.inr (by decide))

/-- C3 (code_bug evaluation): the end-of-run writeback stores
`list(s)[-K:]` of a Python `set`, whose iteration order is unspecified.
With identifiers marked in the order x, y, z and capacity K = 2, the
enumeration ["z", "x", "y"] is a legitimate `list(s)` for the set
{x, y, z}; the stored ledger is then ["x", "y"]: the right size K, but the
most recently marked identifier z is the one evicted, against the intended
retain-newest/evict-oldest behaviour (the mechanism is identical at the
source's capacities of 1000 and 2000). -/
theorem dedup_writeback_loses_recent_mark :
    enum_of_pyset ["z", "x", "y"] ({"x", "y", "z"} : Finset String) ∧
    set_writeback ["z", "x", "y"] 2 = ["x", "y"] ∧
    (set_writeback ["z", "x", "y"] 2).length = 2 ∧
    "z" ∉ set_writeback ["z", "x", "y"] 2 := by
  refine ⟨⟨?_, ?_⟩, ?_, ?_, ?_⟩ <;> decide

end TldrBot
